import Mathlib

/-!
Verification development for the PetKit Home Assistant integration's
binary-sensor platform (`custom_components/petkit/binary_sensor.py`).

The platform is a declarative mapping from polled cloud-API device state to
binary sensor entities.  We embed the JSON state blobs, the Python dictionary
and comparison operations the source uses, each entity class's attribute
properties, and the entity-instantiation logic of `async_setup_entry`, and
prove the frozen specification claims about them.
-/

/-- A JSON value as delivered by the vendor cloud API.  Python raises on some
operations depending on the runtime type of a value; modelling the value
domain lets the embedding mirror that (fallible operations return `Option`). -/
inductive JVal where
  | null
  | bool (b : Bool)
  | num (n : Int)
  | str (s : String)
  | obj (fields : List (String × JVal))

/-- A JSON object / Python dict with string keys (the shape of `data` and
`device_detail` on the API model objects). -/
abbrev JDict := List (String × JVal)

/-- Python `d[k]` on a dict: the value stored at key `k`, `none` = `KeyError`. -/
def dget (d : JDict) (k : String) : Option JVal :=
  (d.find? (fun p => p.1 == k)).map (fun p => p.2)

/-- Python `k in d` on a dict: key membership. -/
def dhas (d : JDict) (k : String) : Bool :=
  (dget d k).isSome

/-- Python `v[k]` where `v` is an arbitrary JSON value: indexing a non-dict
with a string key raises `TypeError`, a missing key raises `KeyError`. -/
def jget (v : JVal) (k : String) : Option JVal :=
  match v with
  | .obj fs => (fs.find? (fun p => p.1 == k)).map (fun p => p.2)
  | _ => none

/-- Two-level lookup `d[k1][k2]`, as in `data["state"]["food"]`. -/
def dget2 (d : JDict) (k1 k2 : String) : Option JVal :=
  (dget d k1).bind (fun v => jget v k2)

/-- Python `k in v` for an arbitrary value `v`: key membership on a dict,
substring test on a string, `TypeError` (`none`) on anything else. -/
def pyIn (k : String) (v : JVal) : Option Bool :=
  match v with
  | .obj fs => some (fs.any (fun p => p.1 == k))
  | .str s => some (s.data.tails.any (fun t => k.data.isPrefixOf t))
  | _ => none

/-- Python `v == c` for an integer literal `c`: numbers compare numerically,
booleans compare as 0/1 (Python `bool` is an `int`), everything else is
unequal.  Never raises. -/
def pyEqInt (v : JVal) (c : Int) : Bool :=
  match v with
  | .num n => n == c
  | .bool b => (if b then (1 : Int) else 0) == c
  | _ => false

/-- Python `v < c` for an integer literal `c`: defined on numbers and
booleans, `TypeError` (`none`) otherwise. -/
def pyLtInt (v : JVal) (c : Int) : Option Bool :=
  match v with
  | .num n => some (decide (n < c))
  | .bool b => some (decide ((if b then (1 : Int) else 0) < c))
  | _ => none

/-- Python `v > c` for an integer literal `c`: defined on numbers and
booleans, `TypeError` (`none`) otherwise. -/
def pyGtInt (v : JVal) (c : Int) : Option Bool :=
  match v with
  | .num n => some (decide (c < n))
  | .bool b => some (decide (c < (if b then (1 : Int) else 0)))
  | _ => none

/-- Python truthiness of a JSON value (used by `if self.is_on:`). -/
def pyTruthy (v : JVal) : Bool :=
  match v with
  | .null => false
  | .bool b => b
  | .num n => n != 0
  | .str s => s != ""
  | .obj fs => !fs.isEmpty

/-- Python `str(v)` / f-string interpolation of a JSON value.  The rendering
of nested objects is abbreviated; no claim depends on its exact text. -/
def pyStr (v : JVal) : String :=
  match v with
  | .null => "None"
  | .bool true => "True"
  | .bool false => "False"
  | .num n => toString n
  | .str s => s
  | .obj _ => "\x7b...\x7d"

/-- Modelled from the spec: `const.py` is not among the sources; the spec
identifies `DOMAIN` only as the integration's domain constant. -/
def DOMAIN : String := "petkit"

/-- Modelled from the spec: `const.py` is not among the sources.  The spec
describes `FEEDERS` only as a model-name table keyed by feeder type code;
its entries are unknown, so it is modelled as an empty association list. -/
def FEEDERS : List (String × String) := []

/-- Modelled from the spec: `const.py` is not among the sources.  The spec
describes `LITTER_BOXES` only as a model-name table keyed by litter-box type
code; its entries are unknown, so it is modelled as an empty association
list. -/
def LITTER_BOXES : List (String × String) := []

/-- Modelled from the spec: `const.py` is not among the sources.  The spec
describes `WATER_FOUNTAINS` only as a model-name table keyed by the numeric
`typeCode` field; its entries are unknown, so it is modelled as an empty
association list. -/
def WATER_FOUNTAINS : List (Int × String) := []

/-- The `petkit_api.model.Fountain` object, as used by this platform: a
device id, a type code string, and the raw `data` blob.  The id is modelled
by its decimal string form, since the source only ever uses it via `str()`
and as an opaque identifier. -/
structure Fountain where
  id : String
  type : String
  data : JDict

/-- The `petkit_api.model.Feeder` object, as used by this platform. -/
structure Feeder where
  id : String
  type : String
  data : JDict

/-- The `petkit_api.model.LitterBox` object, as used by this platform:
besides the id, the type code and the raw `device_detail` blob, the source
reads the typed attribute `manually_paused`. -/
structure LitterBox where
  id : String
  type : String
  device_detail : JDict
  manually_paused : Bool

/-- The coordinator's already-fetched data: three device dictionaries keyed
by device id.  A Python dict is modelled as an association list; its
keys-are-unique invariant is stated as a hypothesis where a claim needs it. -/
structure CoordinatorData where
  water_fountains : List (Nat × Fountain)
  feeders : List (Nat × Feeder)
  litter_boxes : List (Nat × LitterBox)

/-- Python dict lookup `coordinator.data.water_fountains[wf_id]`. -/
def lookupWF (d : CoordinatorData) (k : Nat) : Option Fountain :=
  (d.water_fountains.find? (fun p => p.1 == k)).map (fun p => p.2)

/-- Python dict lookup `coordinator.data.feeders[feeder_id]`. -/
def lookupFeeder (d : CoordinatorData) (k : Nat) : Option Feeder :=
  (d.feeders.find? (fun p => p.1 == k)).map (fun p => p.2)

/-- Python dict lookup `coordinator.data.litter_boxes[lb_id]`. -/
def lookupLB (d : CoordinatorData) (k : Nat) : Option LitterBox :=
  (d.litter_boxes.find? (fun p => p.1 == k)).map (fun p => p.2)

/-- The seventeen entity classes defined by `binary_sensor.py`. -/
inductive EntityKind where
  | WFWater | WFElectricStatus | WFPumpStatus
  | FoodLevel | BatteryInstalled | BatteryCharging
  | FoodLevelHopper1 | FoodLevelHopper2
  | CameraStatus | Eating | Feeding | CarePlusSubscription
  | LBBinFull | LBLitterLack | LBDeodorizerLack | LBManuallyPaused
  | LBBWastePresence
deriving DecidableEq, Fintype, Repr

/-- An instantiated entity: its class together with the device-dictionary
key stored by `__init__` (`wf_id` / `feeder_id` / `lb_id`). -/
structure Entity where
  kind : EntityKind
  key : Nat
deriving DecidableEq, Repr

/-- `WFWater.is_on`: `data["lackWarning"] == 1`. -/
def WFWater.is_on (wf : Fountain) : Option JVal :=
  (dget wf.data "lackWarning").map (fun v => .bool (pyEqInt v 1))

/-- `WFWater.icon`. -/
def WFWater.icon (wf : Fountain) : Option String :=
  (dget wf.data "lackWarning").map
    (fun v => if pyEqInt v 1 then "mdi:water-alert" else "mdi:water")

/-- `WFElectricStatus.is_on`: `data["status"]["electricStatus"] > 0`. -/
def WFElectricStatus.is_on (wf : Fountain) : Option JVal :=
  (dget2 wf.data "status" "electricStatus").bind
    (fun v => (pyGtInt v 0).map (fun b => .bool b))

/-- `WFElectricStatus.icon`, which branches on `self.is_on`. -/
def WFElectricStatus.icon (wf : Fountain) : Option String :=
  (WFElectricStatus.is_on wf).map
    (fun v => if pyTruthy v then "mdi:power-plug" else "mdi:power-plug-off")

/-- `WFPumpStatus.is_on`: `data["status"]["runStatus"] == 1`. -/
def WFPumpStatus.is_on (wf : Fountain) : Option JVal :=
  (dget2 wf.data "status" "runStatus").map (fun v => .bool (pyEqInt v 1))

/-- `WFPumpStatus.icon`, which branches on `self.is_on`. -/
def WFPumpStatus.icon (wf : Fountain) : Option String :=
  (WFPumpStatus.is_on wf).map
    (fun v => if pyTruthy v then "mdi:water-pump" else "mdi:water-pump-off")

/-- `FoodLevel.is_on`: for a `d3` feeder, `data["state"]["food"] < 2`;
otherwise `data["state"]["food"] == 0`.  (The source writes two exhaustive
`if` statements on `type == "d3"` / `type != "d3"`.) -/
def FoodLevel.is_on (f : Feeder) : Option JVal :=
  if f.type = "d3" then
    (dget2 f.data "state" "food").bind
      (fun v => (pyLtInt v 2).map (fun b => .bool b))
  else
    (dget2 f.data "state" "food").map (fun v => .bool (pyEqInt v 0))

/-- `FoodLevel.icon`, same two branches as `FoodLevel.is_on`. -/
def FoodLevel.icon (f : Feeder) : Option String :=
  if f.type = "d3" then
    (dget2 f.data "state" "food").bind
      (fun v => (pyLtInt v 2).map
        (fun b => if b then "mdi:food-drumstick-off" else "mdi:food-drumstick"))
  else
    (dget2 f.data "state" "food").map
      (fun v => if pyEqInt v 0 then "mdi:food-drumstick-off" else "mdi:food-drumstick")

/-- `BatteryInstalled.is_on`: `data["state"]["batteryPower"] == 1`. -/
def BatteryInstalled.is_on (f : Feeder) : Option JVal :=
  (dget2 f.data "state" "batteryPower").map (fun v => .bool (pyEqInt v 1))

/-- `BatteryInstalled.icon`: constant. -/
def BatteryInstalled.icon (_f : Feeder) : Option String :=
  some "mdi:battery"

/-- `BatteryCharging.is_on`: `data["state"]["charge"] > 1`. -/
def BatteryCharging.is_on (f : Feeder) : Option JVal :=
  (dget2 f.data "state" "charge").bind
    (fun v => (pyGtInt v 1).map (fun b => .bool b))

/-- `BatteryCharging.icon`: constant. -/
def BatteryCharging.icon (_f : Feeder) : Option String :=
  some "mdi:battery"

/-- `FoodLevelHopper1.is_on`: `data["state"]["food1"] < 1`. -/
def FoodLevelHopper1.is_on (f : Feeder) : Option JVal :=
  (dget2 f.data "state" "food1").bind
    (fun v => (pyLtInt v 1).map (fun b => .bool b))

/-- `FoodLevelHopper1.icon`: tests `data["state"]["food1"] == 0`. -/
def FoodLevelHopper1.icon (f : Feeder) : Option String :=
  (dget2 f.data "state" "food1").map
    (fun v => if pyEqInt v 0 then "mdi:food-drumstick-off" else "mdi:food-drumstick")

/-- `FoodLevelHopper2.is_on`: `data["state"]["food2"] < 1`. -/
def FoodLevelHopper2.is_on (f : Feeder) : Option JVal :=
  (dget2 f.data "state" "food2").bind
    (fun v => (pyLtInt v 1).map (fun b => .bool b))

/-- `FoodLevelHopper2.icon`: tests `data["state"]["food2"] == 0`. -/
def FoodLevelHopper2.icon (f : Feeder) : Option String :=
  (dget2 f.data "state" "food2").map
    (fun v => if pyEqInt v 0 then "mdi:food-drumstick-off" else "mdi:food-drumstick")

/-- `CameraStatus.is_on`: `data["state"]["cameraStatus"] == 1`. -/
def CameraStatus.is_on (f : Feeder) : Option JVal :=
  (dget2 f.data "state" "cameraStatus").map (fun v => .bool (pyEqInt v 1))

/-- `CameraStatus.icon`. -/
def CameraStatus.icon (f : Feeder) : Option String :=
  (dget2 f.data "state" "cameraStatus").map
    (fun v => if pyEqInt v 1 then "mdi:cctv" else "mdi:cctv-off")

/-- `Eating.is_on`: `data["state"]["eating"] == 1`. -/
def Eating.is_on (f : Feeder) : Option JVal :=
  (dget2 f.data "state" "eating").map (fun v => .bool (pyEqInt v 1))

/-- `Eating.icon`: constant. -/
def Eating.icon (_f : Feeder) : Option String :=
  some "mdi:silverware-fork-knife"

/-- `Feeding.is_on`: `data["state"]["feeding"] == 1`. -/
def Feeding.is_on (f : Feeder) : Option JVal :=
  (dget2 f.data "state" "feeding").map (fun v => .bool (pyEqInt v 1))

/-- `Feeding.icon`: constant. -/
def Feeding.icon (_f : Feeder) : Option String :=
  some "mdi:shaker-outline"

/-- `CarePlusSubscription.is_on`: `data["cloudProduct"]["subscribe"] == 1`. -/
def CarePlusSubscription.is_on (f : Feeder) : Option JVal :=
  (dget2 f.data "cloudProduct" "subscribe").map (fun v => .bool (pyEqInt v 1))

/-- `CarePlusSubscription.icon`. -/
def CarePlusSubscription.icon (f : Feeder) : Option String :=
  (dget2 f.data "cloudProduct" "subscribe").map
    (fun v => if pyEqInt v 1 then "mdi:check-circle" else "mdi:cancel")

/-- `LBBinFull.is_on`: returns `device_detail["state"]["boxFull"]` itself. -/
def LBBinFull.is_on (lb : LitterBox) : Option JVal :=
  dget2 lb.device_detail "state" "boxFull"

/-- `LBBinFull.icon`: constant. -/
def LBBinFull.icon (_lb : LitterBox) : Option String :=
  some "mdi:delete"

/-- `LBLitterLack.is_on`: returns `device_detail["state"]["sandLack"]` itself. -/
def LBLitterLack.is_on (lb : LitterBox) : Option JVal :=
  dget2 lb.device_detail "state" "sandLack"

/-- `LBLitterLack.icon`: constant. -/
def LBLitterLack.icon (_lb : LitterBox) : Option String :=
  some "mdi:landslide"

/-- `LBDeodorizerLack.is_on`: returns `device_detail["state"]["liquidLack"]`
itself. -/
def LBDeodorizerLack.is_on (lb : LitterBox) : Option JVal :=
  dget2 lb.device_detail "state" "liquidLack"

/-- `LBDeodorizerLack.translation_key`: `"pura_air_liquid"` when a Pura Air
device is associated (`"k3Device" in device_detail`), `"deodorizer"`
otherwise. -/
def LBDeodorizerLack.translation_key (lb : LitterBox) : String :=
  if dhas lb.device_detail "k3Device" then "pura_air_liquid" else "deodorizer"

/-- `LBDeodorizerLack.icon`: `"mdi:cup"` when a Pura Air device is
associated, `"mdi:spray"` otherwise. -/
def LBDeodorizerLack.icon (lb : LitterBox) : Option String :=
  some (if dhas lb.device_detail "k3Device" then "mdi:cup" else "mdi:spray")

/-- `LBDeodorizerLack.available`: for a `t4` box, available exactly when a
Pura Air device is associated; always available otherwise. -/
def LBDeodorizerLack.available (lb : LitterBox) : Bool :=
  if lb.type = "t4" then dhas lb.device_detail "k3Device" else true

/-- `LBManuallyPaused.is_on`: the typed attribute `lb_data.manually_paused`. -/
def LBManuallyPaused.is_on (lb : LitterBox) : Option JVal :=
  some (.bool lb.manually_paused)

/-- `LBManuallyPaused.icon`: constant. -/
def LBManuallyPaused.icon (_lb : LitterBox) : Option String :=
  some "mdi:pause"

/-- `LBBWastePresence.is_on`: `False` when
`device_detail["state"]["boxState"] == 1`, `True` otherwise. -/
def LBBWastePresence.is_on (lb : LitterBox) : Option JVal :=
  (dget2 lb.device_detail "state" "boxState").map
    (fun v => .bool (!(pyEqInt v 1)))

/-- `LBBWastePresence.icon`: `"mdi:inbox"` when
`device_detail["state"]["boxState"] == 1`, `"mdi:inbox-remove"` otherwise. -/
def LBBWastePresence.icon (lb : LitterBox) : Option String :=
  (dget2 lb.device_detail "state" "boxState").map
    (fun v => if pyEqInt v 1 then "mdi:inbox" else "mdi:inbox-remove")

/-- The water-fountain `device_info` (identical in `WFWater`,
`WFElectricStatus` and `WFPumpStatus`): identifiers, `data["name"]`,
manufacturer, a `WATER_FOUNTAINS.get(data["typeCode"], ...)` model guarded by
`"typeCode" in data`, and `sw_version` from `data["hardware"]`/`data["firmware"]`.
Missing `name`/`hardware`/`firmware` keys raise (`none`). -/
def wfDeviceInfo (wf : Fountain) : Option JVal :=
  (dget wf.data "name").bind (fun name =>
    (dget wf.data "hardware").bind (fun hw =>
      (dget wf.data "firmware").map (fun fw =>
        .obj
          [ ("identifiers", .obj [ ("domain", .str DOMAIN), ("id", .str wf.id) ]),
            ("name", name),
            ("manufacturer", .str "PetKit"),
            ("model", .str
              (if dhas wf.data "typeCode" then
                 match dget wf.data "typeCode" with
                 | some (.num n) =>
                     ((WATER_FOUNTAINS.find? (fun p => p.1 == n)).map
                       (fun p => p.2)).getD "Unidentified Water Fountain"
                 | _ => "Unidentified Water Fountain"
               else "Unidentified Water Fountain")),
            ("sw_version", .str (pyStr hw ++ "." ++ pyStr fw)) ])))

/-- The feeder `device_info` (identical in all feeder entity classes):
`FEEDERS[type]` raises on an unknown type code, and `data["name"]` /
`data["firmware"]` raise when missing. -/
def feederDeviceInfo (f : Feeder) : Option JVal :=
  (dget f.data "name").bind (fun name =>
    (((FEEDERS.find? (fun p => p.1 == f.type)).map (fun p => p.2)).bind
      (fun model =>
        (dget f.data "firmware").map (fun fw =>
          .obj
            [ ("identifiers", .obj [ ("domain", .str DOMAIN), ("id", .str f.id) ]),
              ("name", name),
              ("manufacturer", .str "PetKit"),
              ("model", .str model),
              ("sw_version", .str (pyStr fw)) ]))))

/-- The litter-box `device_info` (identical in all litter-box entity
classes), reading `device_detail["name"]`, `LITTER_BOXES[type]` and
`device_detail["firmware"]`. -/
def lbDeviceInfo (lb : LitterBox) : Option JVal :=
  (dget lb.device_detail "name").bind (fun name =>
    (((LITTER_BOXES.find? (fun p => p.1 == lb.type)).map (fun p => p.2)).bind
      (fun model =>
        (dget lb.device_detail "firmware").map (fun fw =>
          .obj
            [ ("identifiers", .obj [ ("domain", .str DOMAIN), ("id", .str lb.id) ]),
              ("name", name),
              ("manufacturer", .str "PetKit"),
              ("model", .str model),
              ("sw_version", .str (pyStr fw)) ]))))

/-- The `unique_id` suffix each entity class appends to `str(device.id)`. -/
def kindSuffix : EntityKind → String
  | .WFWater => "_water_level"
  | .WFElectricStatus => "_electric_status"
  | .WFPumpStatus => "_pump_status"
  | .FoodLevel => "_food_level"
  | .BatteryInstalled => "_battery_installed"
  | .BatteryCharging => "_battery_charging"
  | .FoodLevelHopper1 => "_food_level_hopper_1"
  | .FoodLevelHopper2 => "_food_level_hopper_2"
  | .CameraStatus => "_camera_status"
  | .Eating => "_eating"
  | .Feeding => "_feeding"
  | .CarePlusSubscription => "_care_plus_subscription"
  | .LBBinFull => "_wastebin"
  | .LBLitterLack => "_litter_lack"
  | .LBDeodorizerLack => "_deodorizer_lack"
  | .LBManuallyPaused => "_manually_paused"
  | .LBBWastePresence => "_wastebin_presence"

/-- The `translation_key` of each entity class whose key is a constant
(`LBDeodorizerLack`'s is dynamic and handled separately). -/
def kindTranslationKey : EntityKind → String
  | .WFWater => "water_level"
  | .WFElectricStatus => "electric_status"
  | .WFPumpStatus => "pump_status"
  | .FoodLevel => "food_level"
  | .BatteryInstalled => "battery_installed"
  | .BatteryCharging => "battery"
  | .FoodLevelHopper1 => "food_level_hopper_one"
  | .FoodLevelHopper2 => "food_level_hopper_two"
  | .CameraStatus => "camera_status"
  | .Eating => "eating"
  | .Feeding => "feeding"
  | .CarePlusSubscription => "care_plus_subscription"
  | .LBBinFull => "wastebin"
  | .LBLitterLack => "litter"
  | .LBDeodorizerLack => "deodorizer"
  | .LBManuallyPaused => "manually_paused"
  | .LBBWastePresence => "waste_bin_presence"

/-- The `device_class` property each entity class defines, if any.
`BatteryInstalled`, `CameraStatus`, `LBManuallyPaused` and
`CarePlusSubscription` define none (they only set a diagnostic
`entity_category`); for them the host's `BinarySensorEntity` base yields
`None`. -/
def deviceClassOf : EntityKind → Option String
  | .WFWater => some "problem"
  | .WFElectricStatus => some "power"
  | .WFPumpStatus => some "power"
  | .FoodLevel => some "problem"
  | .BatteryInstalled => none
  | .BatteryCharging => some "battery_charging"
  | .FoodLevelHopper1 => some "problem"
  | .FoodLevelHopper2 => some "problem"
  | .CameraStatus => none
  | .Eating => some "occupancy"
  | .Feeding => some "occupancy"
  | .CarePlusSubscription => none
  | .LBBinFull => some "problem"
  | .LBLitterLack => some "problem"
  | .LBDeodorizerLack => some "problem"
  | .LBManuallyPaused => none
  | .LBBWastePresence => some "problem"

/-- The entities the water-fountain loop of `async_setup_entry` appends for
one `(wf_id, wf_data)` dictionary entry: always `WFWater`, plus
`WFElectricStatus` and `WFPumpStatus` for a `ctw3` fountain. -/
def wfEnts (p : Nat × Fountain) : List Entity :=
  [⟨.WFWater, p.1⟩] ++
    (if p.2.type = "ctw3" then [⟨.WFElectricStatus, p.1⟩, ⟨.WFPumpStatus, p.1⟩]
     else [])

/-- The entities the feeder loop of `async_setup_entry` appends for one
`(feeder_id, feeder_data)` dictionary entry. -/
def feederEnts (p : Nat × Feeder) : List Entity :=
  (if p.2.type ∈ (["d4s", "d4sh"] : List String) then []
   else [⟨.FoodLevel, p.1⟩]) ++
  (if p.2.type ∈ (["d4", "d4s", "d4sh"] : List String) then [⟨.BatteryInstalled, p.1⟩]
   else []) ++
  (if p.2.type ∈ (["d4s", "d4sh"] : List String) then
     [⟨.FoodLevelHopper1, p.1⟩, ⟨.FoodLevelHopper2, p.1⟩]
   else []) ++
  (if p.2.type = "d4sh" then
     [⟨.CameraStatus, p.1⟩, ⟨.Eating, p.1⟩, ⟨.Feeding, p.1⟩,
      ⟨.CarePlusSubscription, p.1⟩]
   else []) ++
  (if p.2.type = "d3" then [⟨.BatteryCharging, p.1⟩] else [])

/-- The entities the litter-box loop appends for one `(lb_id, lb_data)`
entry, given the already-computed result `hasBox` of the Python test
`"boxState" in lb_data.device_detail["state"]`. -/
def lbEntsCore (p : Nat × LitterBox) (hasBox : Bool) : List Entity :=
  (if p.2.type ∈ (["t3", "t4", "t6"] : List String) then
     [⟨.LBBinFull, p.1⟩, ⟨.LBLitterLack, p.1⟩]
   else []) ++
  (if p.2.type = "t3" ∨ dhas p.2.device_detail "k3Device" = true then
     [⟨.LBDeodorizerLack, p.1⟩]
   else []) ++
  (if p.2.type = "t3" then [⟨.LBManuallyPaused, p.1⟩] else []) ++
  (if hasBox then [⟨.LBBWastePresence, p.1⟩] else [])

/-- One iteration of the litter-box loop: the membership test
`"boxState" in lb_data.device_detail["state"]` raises (`none`) when
`device_detail` has no `"state"` key or its value supports no `in`. -/
def lbEnts (p : Nat × LitterBox) : Option (List Entity) :=
  ((dget p.2.device_detail "state").bind (pyIn "boxState")).map (lbEntsCore p)

/-- The whole litter-box loop; an exception anywhere aborts the setup. -/
def lbSetup : List (Nat × LitterBox) → Option (List Entity)
  | [] => some []
  | p :: rest =>
      (lbEnts p).bind (fun es => (lbSetup rest).map (fun rs => es ++ rs))

/-- `async_setup_entry`: the full list of entities passed to
`async_add_entities`, or `none` when the litter-box loop raises (in which
case no entity is added at all). -/
def setupEntities (d : CoordinatorData) : Option (List Entity) :=
  (lbSetup d.litter_boxes).map (fun lbs =>
    d.water_fountains.flatMap wfEnts ++ d.feeders.flatMap feederEnts ++ lbs)

/-- Which of the three device dictionaries an entity class draws from. -/
inductive DevCat where
  | wf | feeder | lb
deriving DecidableEq, Repr

/-- The device category of each entity class. -/
def kindCat : EntityKind → DevCat
  | .WFWater | .WFElectricStatus | .WFPumpStatus => .wf
  | .FoodLevel | .BatteryInstalled | .BatteryCharging
  | .FoodLevelHopper1 | .FoodLevelHopper2
  | .CameraStatus | .Eating | .Feeding | .CarePlusSubscription => .feeder
  | .LBBinFull | .LBLitterLack | .LBDeodorizerLack | .LBManuallyPaused
  | .LBBWastePresence => .lb

/-- Evaluate `is_on` of an entity against coordinator data: resolve the
stored dictionary key (a missing device raises, `none`), then run the
class's `is_on` property. -/
def isOnAt (k : EntityKind) (key : Nat) (d : CoordinatorData) : Option JVal :=
  match k with
  | .WFWater => (lookupWF d key).bind WFWater.is_on
  | .WFElectricStatus => (lookupWF d key).bind WFElectricStatus.is_on
  | .WFPumpStatus => (lookupWF d key).bind WFPumpStatus.is_on
  | .FoodLevel => (lookupFeeder d key).bind FoodLevel.is_on
  | .BatteryInstalled => (lookupFeeder d key).bind BatteryInstalled.is_on
  | .BatteryCharging => (lookupFeeder d key).bind BatteryCharging.is_on
  | .FoodLevelHopper1 => (lookupFeeder d key).bind FoodLevelHopper1.is_on
  | .FoodLevelHopper2 => (lookupFeeder d key).bind FoodLevelHopper2.is_on
  | .CameraStatus => (lookupFeeder d key).bind CameraStatus.is_on
  | .Eating => (lookupFeeder d key).bind Eating.is_on
  | .Feeding => (lookupFeeder d key).bind Feeding.is_on
  | .CarePlusSubscription => (lookupFeeder d key).bind CarePlusSubscription.is_on
  | .LBBinFull => (lookupLB d key).bind LBBinFull.is_on
  | .LBLitterLack => (lookupLB d key).bind LBLitterLack.is_on
  | .LBDeodorizerLack => (lookupLB d key).bind LBDeodorizerLack.is_on
  | .LBManuallyPaused => (lookupLB d key).bind LBManuallyPaused.is_on
  | .LBBWastePresence => (lookupLB d key).bind LBBWastePresence.is_on

/-- Evaluate `icon` of an entity against coordinator data. -/
def iconAt (k : EntityKind) (key : Nat) (d : CoordinatorData) : Option JVal :=
  match k with
  | .WFWater => (lookupWF d key).bind (fun x => (WFWater.icon x).map .str)
  | .WFElectricStatus =>
      (lookupWF d key).bind (fun x => (WFElectricStatus.icon x).map .str)
  | .WFPumpStatus => (lookupWF d key).bind (fun x => (WFPumpStatus.icon x).map .str)
  | .FoodLevel => (lookupFeeder d key).bind (fun x => (FoodLevel.icon x).map .str)
  | .BatteryInstalled =>
      (lookupFeeder d key).bind (fun x => (BatteryInstalled.icon x).map .str)
  | .BatteryCharging =>
      (lookupFeeder d key).bind (fun x => (BatteryCharging.icon x).map .str)
  | .FoodLevelHopper1 =>
      (lookupFeeder d key).bind (fun x => (FoodLevelHopper1.icon x).map .str)
  | .FoodLevelHopper2 =>
      (lookupFeeder d key).bind (fun x => (FoodLevelHopper2.icon x).map .str)
  | .CameraStatus => (lookupFeeder d key).bind (fun x => (CameraStatus.icon x).map .str)
  | .Eating => (lookupFeeder d key).bind (fun x => (Eating.icon x).map .str)
  | .Feeding => (lookupFeeder d key).bind (fun x => (Feeding.icon x).map .str)
  | .CarePlusSubscription =>
      (lookupFeeder d key).bind (fun x => (CarePlusSubscription.icon x).map .str)
  | .LBBinFull => (lookupLB d key).bind (fun x => (LBBinFull.icon x).map .str)
  | .LBLitterLack => (lookupLB d key).bind (fun x => (LBLitterLack.icon x).map .str)
  | .LBDeodorizerLack =>
      (lookupLB d key).bind (fun x => (LBDeodorizerLack.icon x).map .str)
  | .LBManuallyPaused =>
      (lookupLB d key).bind (fun x => (LBManuallyPaused.icon x).map .str)
  | .LBBWastePresence =>
      (lookupLB d key).bind (fun x => (LBBWastePresence.icon x).map .str)

/-- Evaluate `translation_key`: constant for every class except
`LBDeodorizerLack`, whose key depends on the `k3Device` association. -/
def translationKeyAt (k : EntityKind) (key : Nat) (d : CoordinatorData) : Option JVal :=
  match k with
  | .LBDeodorizerLack =>
      (lookupLB d key).map (fun lb => .str (LBDeodorizerLack.translation_key lb))
  | k => some (.str (kindTranslationKey k))

/-- Evaluate `device_class`: a per-class constant; the four classes that
define none inherit the host base's `None`. -/
def deviceClassAt (k : EntityKind) (_key : Nat) (_d : CoordinatorData) : Option JVal :=
  some ((deviceClassOf k).elim .null .str)

/-- Evaluate `device_info` through the stored key. -/
def deviceInfoAt (k : EntityKind) (key : Nat) (d : CoordinatorData) : Option JVal :=
  match kindCat k with
  | .wf => (lookupWF d key).bind wfDeviceInfo
  | .feeder => (lookupFeeder d key).bind feederDeviceInfo
  | .lb => (lookupLB d key).bind lbDeviceInfo

/-- The `unique_id` of an entity: `str(device.id)` concatenated with the
class's suffix, through the stored dictionary key. -/
def uidOf (d : CoordinatorData) (e : Entity) : Option String :=
  match kindCat e.kind with
  | .wf => (lookupWF d e.key).map (fun x => x.id ++ kindSuffix e.kind)
  | .feeder => (lookupFeeder d e.key).map (fun x => x.id ++ kindSuffix e.kind)
  | .lb => (lookupLB d e.key).map (fun x => x.id ++ kindSuffix e.kind)

/-- Evaluate `unique_id` as a JSON-encoded attribute value. -/
def uniqueIdAt (k : EntityKind) (key : Nat) (d : CoordinatorData) : Option JVal :=
  (uidOf d ⟨k, key⟩).map .str

/-- Evaluate `available`: only `LBDeodorizerLack` overrides it; for every
other class the host coordinator-entity base supplies it.  Modelled from the
spec: the host's generic availability is out of scope and modelled as
`True`, a constant independent of this platform's data. -/
def availableAt (k : EntityKind) (key : Nat) (d : CoordinatorData) : Option JVal :=
  match k with
  | .LBDeodorizerLack =>
      (lookupLB d key).map (fun lb => .bool (LBDeodorizerLack.available lb))
  | _ => some (.bool true)

/-- The seven entity attributes named by the spec's mapping. -/
inductive Attr where
  | isOn | icon | deviceClass | deviceInfo | uniqueId | translationKey | available
deriving DecidableEq, Repr

/-- Evaluate one attribute of one entity against coordinator data. -/
def evalAttrV (a : Attr) (k : EntityKind) (key : Nat) (d : CoordinatorData) :
    Option JVal :=
  match a with
  | .isOn => isOnAt k key d
  | .icon => iconAt k key d
  | .deviceClass => deviceClassAt k key d
  | .deviceInfo => deviceInfoAt k key d
  | .uniqueId => uniqueIdAt k key d
  | .translationKey => translationKeyAt k key d
  | .available => availableAt k key d

/-- State-passing form of attribute evaluation: the value produced together
with the coordinator data after the evaluation.  Every property body in the
source only reads from `self.coordinator.data`, so the resulting data is the
input data. -/
def evalAttrS (a : Attr) (k : EntityKind) (key : Nat) (d : CoordinatorData) :
    Option JVal × CoordinatorData :=
  (evalAttrV a k key d, d)

/-- A JSON value is a Python `int`-like operand (`int` or `bool`) for order
comparisons. -/
def isIntLike : JVal → Bool
  | .num _ => true
  | .bool _ => true
  | _ => false

/-- The entity classes whose `is_on` returns the stored blob field itself
instead of testing a condition. -/
def rawIsOnKinds : List EntityKind :=
  [.LBBinFull, .LBLitterLack, .LBDeodorizerLack]

/-- The fields read by an entity's `is_on` are present in the device's blob
(and, where the source order-compares them with an integer, hold an `int` or
`bool`), and the device itself is in the coordinator data. -/
def isOnReady (k : EntityKind) (key : Nat) (d : CoordinatorData) : Bool :=
  match k with
  | .WFWater =>
      match lookupWF d key with
      | some wf => (dget wf.data "lackWarning").isSome
      | none => false
  | .WFElectricStatus =>
      match lookupWF d key with
      | some wf =>
          match dget2 wf.data "status" "electricStatus" with
          | some v => isIntLike v
          | none => false
      | none => false
  | .WFPumpStatus =>
      match lookupWF d key with
      | some wf => (dget2 wf.data "status" "runStatus").isSome
      | none => false
  | .FoodLevel =>
      match lookupFeeder d key with
      | some f =>
          match dget2 f.data "state" "food" with
          | some v => if f.type = "d3" then isIntLike v else true
          | none => false
      | none => false
  | .BatteryInstalled =>
      match lookupFeeder d key with
      | some f => (dget2 f.data "state" "batteryPower").isSome
      | none => false
  | .BatteryCharging =>
      match lookupFeeder d key with
      | some f =>
          match dget2 f.data "state" "charge" with
          | some v => isIntLike v
          | none => false
      | none => false
  | .FoodLevelHopper1 =>
      match lookupFeeder d key with
      | some f =>
          match dget2 f.data "state" "food1" with
          | some v => isIntLike v
          | none => false
      | none => false
  | .FoodLevelHopper2 =>
      match lookupFeeder d key with
      | some f =>
          match dget2 f.data "state" "food2" with
          | some v => isIntLike v
          | none => false
      | none => false
  | .CameraStatus =>
      match lookupFeeder d key with
      | some f => (dget2 f.data "state" "cameraStatus").isSome
      | none => false
  | .Eating =>
      match lookupFeeder d key with
      | some f => (dget2 f.data "state" "eating").isSome
      | none => false
  | .Feeding =>
      match lookupFeeder d key with
      | some f => (dget2 f.data "state" "feeding").isSome
      | none => false
  | .CarePlusSubscription =>
      match lookupFeeder d key with
      | some f => (dget2 f.data "cloudProduct" "subscribe").isSome
      | none => false
  | .LBBinFull =>
      match lookupLB d key with
      | some lb => (dget2 lb.device_detail "state" "boxFull").isSome
      | none => false
  | .LBLitterLack =>
      match lookupLB d key with
      | some lb => (dget2 lb.device_detail "state" "sandLack").isSome
      | none => false
  | .LBDeodorizerLack =>
      match lookupLB d key with
      | some lb => (dget2 lb.device_detail "state" "liquidLack").isSome
      | none => false
  | .LBManuallyPaused => (lookupLB d key).isSome
  | .LBBWastePresence =>
      match lookupLB d key with
      | some lb => (dget2 lb.device_detail "state" "boxState").isSome
      | none => false

/-- Concrete fixture: a `d3` feeder whose hopper holds 1 unit of food. -/
def fD3 : Feeder :=
  { id := "101", type := "d3",
    data := [("state", JVal.obj [("food", JVal.num 1), ("charge", JVal.num 2)])] }

/-- Concrete fixture: a `d4` feeder with batteries installed. -/
def fD4 : Feeder :=
  { id := "102", type := "d4",
    data := [("state", JVal.obj [("food", JVal.num 3), ("batteryPower", JVal.num 1)])] }

/-- Concrete fixture: a `d4s` feeder whose hopper counters are negative,
as nothing in the code or API client rules that out. -/
def fD4sNeg : Feeder :=
  { id := "103", type := "d4s",
    data := [("state", JVal.obj [("food1", JVal.num (-1)), ("food2", JVal.num (-1))])] }

/-- Concrete fixture: a `ctw3` water fountain. -/
def wfCtw3 : Fountain :=
  { id := "201", type := "ctw3",
    data :=
      [("lackWarning", JVal.num 1),
       ("status", JVal.obj [("electricStatus", JVal.num 1), ("runStatus", JVal.num 0)])] }

/-- Concrete fixture: a `t3` litter box (Pura X) with no Pura Air attached,
whose wastebin-related state fields are plain JSON numbers. -/
def lbT3 : LitterBox :=
  { id := "301", type := "t3",
    device_detail :=
      [("state", JVal.obj
        [("boxFull", JVal.num 1), ("sandLack", JVal.bool false),
         ("liquidLack", JVal.bool false), ("boxState", JVal.num 1)])],
    manually_paused := false }

/-- Concrete fixture: a `t4` litter box (Pura MAX) with a Pura Air device
associated. -/
def lbT4k3 : LitterBox :=
  { id := "302", type := "t4",
    device_detail :=
      [("state", JVal.obj
        [("boxFull", JVal.bool false), ("sandLack", JVal.bool false),
         ("liquidLack", JVal.bool true), ("boxState", JVal.num 0)]),
       ("k3Device", JVal.obj [])],
    manually_paused := false }

/-- Concrete fixture: coordinator data holding one of each fixture device. -/
def dFix : CoordinatorData :=
  { water_fountains := [(1, wfCtw3)],
    feeders := [(2, fD3), (3, fD4), (4, fD4sNeg)],
    litter_boxes := [(5, lbT3), (6, lbT4k3)] }
/-- C3: for every feeder whose `data["state"]["food"]` is an integer `n`,
`FoodLevel.is_on` is `True` exactly when `n < 2` for a `d3` feeder and
exactly when `n = 0` otherwise, and `FoodLevel.icon` is
`"mdi:food-drumstick-off"` in exactly those cases and
`"mdi:food-drumstick"` otherwise. -/
theorem foodLevel_threshold_c3 (f : Feeder) (n : Int)
    (h : dget2 f.data "state" "food" = some (JVal.num n)) :
    (FoodLevel.is_on f = some (JVal.bool true) ↔
      ((f.type = "d3" ∧ n < 2) ∨ (f.type ≠ "d3" ∧ n = 0))) ∧
    (FoodLevel.icon f = some "mdi:food-drumstick-off" ↔
      ((f.type = "d3" ∧ n < 2) ∨ (f.type ≠ "d3" ∧ n = 0))) ∧
    (¬((f.type = "d3" ∧ n < 2) ∨ (f.type ≠ "d3" ∧ n = 0)) →
      FoodLevel.icon f = some "mdi:food-drumstick") := by
  by_cases ht : f.type = "d3" <;>
    simp [FoodLevel.is_on, FoodLevel.icon, h, ht, pyLtInt, pyEqInt]

/-- Witness for `foodLevel_threshold_c3` at the `d3` fixture with one unit
of food left. -/
theorem foodLevel_threshold_c3_witness :
    FoodLevel.is_on fD3 = some (JVal.bool true) :=
  (foodLevel_threshold_c3 fD3 1 rfl).1.mpr (Or.inl ⟨rfl, by decide⟩)
/-- C6: for every litter box for which an `LBDeodorizerLack` entity is
created, the presentation attributes are selected by the presence of the
`"k3Device"` key in `device_detail`: translation key `"pura_air_liquid"`
and icon `"mdi:cup"` when present, translation key `"deodorizer"` and icon
`"mdi:spray"` otherwise. -/
theorem lbDeodorizer_presentation_c6 (lb : LitterBox)
    (_hcreated : lb.type = "t3" ∨ dhas lb.device_detail "k3Device" = true) :
    (dhas lb.device_detail "k3Device" = true →
       LBDeodorizerLack.translation_key lb = "pura_air_liquid" ∧
       LBDeodorizerLack.icon lb = some "mdi:cup") ∧
    (dhas lb.device_detail "k3Device" = false →
       LBDeodorizerLack.translation_key lb = "deodorizer" ∧
       LBDeodorizerLack.icon lb = some "mdi:spray") := by
  constructor <;> intro h <;>
    simp [LBDeodorizerLack.translation_key, LBDeodorizerLack.icon, h]

/-- Witness for `lbDeodorizer_presentation_c6` at the Pura-Air-equipped
`t4` fixture. -/
theorem lbDeodorizer_presentation_c6_witness :
    LBDeodorizerLack.translation_key lbT4k3 = "pura_air_liquid" ∧
    LBDeodorizerLack.icon lbT4k3 = some "mdi:cup" :=
  (lbDeodorizer_presentation_c6 lbT4k3 (Or.inr rfl)).1 rfl

/-- C7: `LBDeodorizerLack.available` is `False` exactly for a `t4` box with
no `"k3Device"` key in `device_detail`; in particular it is always `True`
for a `t3` box. -/
theorem lbDeodorizer_available_c7 (lb : LitterBox) :
    (LBDeodorizerLack.available lb = false ↔
      (lb.type = "t4" ∧ dhas lb.device_detail "k3Device" = false)) ∧
    (lb.type = "t3" → LBDeodorizerLack.available lb = true) := by
  unfold LBDeodorizerLack.available
  by_cases ht : lb.type = "t4" <;> simp [ht]

/-- Witness for `lbDeodorizer_available_c7` at the `t3` fixture. -/
theorem lbDeodorizer_available_c7_witness :
    LBDeodorizerLack.available lbT3 = true :=
  (lbDeodorizer_available_c7 lbT3).2 rfl

/-- C8: for every litter box whose `device_detail["state"]` contains
`"boxState"`, `is_on` is `True` exactly when the stored value does not
compare equal to `1` under the source's `== 1` test (`pyEqInt`), and the
icon is `"mdi:inbox-remove"` in exactly that case and `"mdi:inbox"`
otherwise. -/
theorem lbBWastePresence_c8 (lb : LitterBox) (v : JVal)
    (h : dget2 lb.device_detail "state" "boxState" = some v) :
    (LBBWastePresence.is_on lb = some (JVal.bool true) ↔ pyEqInt v 1 = false) ∧
    (LBBWastePresence.icon lb = some "mdi:inbox-remove" ↔ pyEqInt v 1 = false) ∧
    (pyEqInt v 1 = true → LBBWastePresence.icon lb = some "mdi:inbox") := by
  cases he : pyEqInt v 1 <;>
    simp [LBBWastePresence.is_on, LBBWastePresence.icon, h, he]

/-- Witness for `lbBWastePresence_c8` at the `t4` fixture (wastebin
absent, `boxState = 0`). -/
theorem lbBWastePresence_c8_witness :
    LBBWastePresence.is_on lbT4k3 = some (JVal.bool true) :=
  (lbBWastePresence_c8 lbT4k3 (JVal.num 0) rfl).1.mpr rfl

/-- C9 fails as stated: at `data["state"]["food1"] = -1` the hopper-1
`is_on` is `True` (it tests `< 1`) while the icon is
`"mdi:food-drumstick"` (it tests `== 0`), so the claimed equivalence does
not hold for every integer value. -/
theorem hopper_icon_c9_counterexample :
    ¬(FoodLevelHopper1.icon fD4sNeg = some "mdi:food-drumstick-off" ↔
      FoodLevelHopper1.is_on fD4sNeg = some (JVal.bool true)) := by
  intro h
  have h2 := h.mpr rfl
  rw [show FoodLevelHopper1.icon fD4sNeg = some "mdi:food-drumstick" from rfl] at h2
  exact absurd (Option.some.inj h2) (by decide)

/-- C9 as amended: whenever `data["state"]["food1"]` (resp. `"food2"`) is a
non-negative integer, the hopper icon is `"mdi:food-drumstick-off"` exactly
when the hopper `is_on` is `True`; for a negative integer `is_on` is `True`
while the icon stays `"mdi:food-drumstick"`. -/
theorem hopper_icon_iff_is_on_c9 (f : Feeder) (n m : Int)
    (h1 : dget2 f.data "state" "food1" = some (JVal.num n))
    (h2 : dget2 f.data "state" "food2" = some (JVal.num m)) :
    (0 ≤ n →
      (FoodLevelHopper1.icon f = some "mdi:food-drumstick-off" ↔
        FoodLevelHopper1.is_on f = some (JVal.bool true))) ∧
    (0 ≤ m →
      (FoodLevelHopper2.icon f = some "mdi:food-drumstick-off" ↔
        FoodLevelHopper2.is_on f = some (JVal.bool true))) ∧
    (n < 0 →
      FoodLevelHopper1.is_on f = some (JVal.bool true) ∧
      FoodLevelHopper1.icon f = some "mdi:food-drumstick") ∧
    (m < 0 →
      FoodLevelHopper2.is_on f = some (JVal.bool true) ∧
      FoodLevelHopper2.icon f = some "mdi:food-drumstick") := by
  simp [FoodLevelHopper1.icon, FoodLevelHopper1.is_on, FoodLevelHopper2.icon,
    FoodLevelHopper2.is_on, h1, h2, pyLtInt, pyEqInt]
  omega

/-- Witness for `hopper_icon_iff_is_on_c9` at the `d4s` fixture (both
hoppers negative). -/
theorem hopper_icon_iff_is_on_c9_witness :
    FoodLevelHopper1.is_on fD4sNeg = some (JVal.bool true) ∧
    FoodLevelHopper1.icon fD4sNeg = some "mdi:food-drumstick" :=
  (hopper_icon_iff_is_on_c9 fD4sNeg (-1) (-1) rfl rfl).2.2.1 (by decide)
/-- C4 fails as stated: `BatteryInstalled` is instantiated for the `d4`
feeder of the fixture data, yet its class defines no `device_class`
property (the host base then yields `None`).  The fixture's setup list also
shows the instantiation. -/
theorem device_class_c4_counterexample :
    setupEntities
      { water_fountains := [], feeders := [(3, fD4)], litter_boxes := [] } =
      some [⟨.FoodLevel, 3⟩, ⟨.BatteryInstalled, 3⟩] ∧
    deviceClassOf .BatteryInstalled = none := ⟨rfl, rfl⟩

/-- C4 as amended: every entity class defines a `device_class` except
`BatteryInstalled`, `CameraStatus`, `LBManuallyPaused` and
`CarePlusSubscription`, which define none. -/
theorem device_class_c4 (k : EntityKind) :
    deviceClassOf k = none ↔
      k ∈ ([.BatteryInstalled, .CameraStatus, .LBManuallyPaused,
            .CarePlusSubscription] : List EntityKind) := by
  cases k <;> simp [deviceClassOf]

/-- C5: every entity attribute is a pure function of the coordinator's
already-fetched data: evaluations over equal coordinator data agree, and
the evaluation returns the coordinator data unchanged. -/
theorem attributes_pure_c5 (a : Attr) (k : EntityKind) (key : Nat)
    (d d' : CoordinatorData) (h : d' = d) :
    evalAttrS a k key d' = evalAttrS a k key d ∧
    (evalAttrS a k key d).2 = d := by
  subst h
  exact ⟨rfl, rfl⟩

/-- Witness for `attributes_pure_c5` at the fixture data. -/
theorem attributes_pure_c5_witness :
    evalAttrS .isOn .FoodLevel 2 dFix = evalAttrS .isOn .FoodLevel 2 dFix ∧
    (evalAttrS .isOn .FoodLevel 2 dFix).2 = dFix :=
  attributes_pure_c5 .isOn .FoodLevel 2 dFix dFix rfl
theorem isOnAt_bool_shape (k : EntityKind) (key : Nat) (d : CoordinatorData)
    (hk : k ∉ rawIsOnKinds) (v : JVal) (hv : isOnAt k key d = some v) :
    ∃ b, v = JVal.bool b := by
  cases k
  case FoodLevel =>
    simp only [isOnAt, FoodLevel.is_on, Option.bind_eq_some] at hv
    obtain ⟨f, hf, hrest⟩ := hv
    split at hrest
    · simp only [Option.bind_eq_some, Option.map_eq_some'] at hrest
      aesop
    · simp only [Option.map_eq_some'] at hrest
      aesop
  all_goals (try exact (hk (by decide)).elim)
  all_goals
    simp only [isOnAt, WFWater.is_on, WFElectricStatus.is_on, WFPumpStatus.is_on,
      BatteryInstalled.is_on, BatteryCharging.is_on,
      FoodLevelHopper1.is_on, FoodLevelHopper2.is_on, CameraStatus.is_on,
      Eating.is_on, Feeding.is_on, CarePlusSubscription.is_on,
      LBManuallyPaused.is_on, LBBWastePresence.is_on,
      Option.bind_eq_some, Option.map_eq_some'] at hv
  all_goals aesop
theorem isOnAt_some_of_ready (k : EntityKind) (key : Nat) (d : CoordinatorData)
    (h : isOnReady k key d = true) : (isOnAt k key d).isSome = true := by
  cases k
  case WFWater =>
    simp only [isOnReady] at h
    cases hl : lookupWF d key with
    | none => simp [hl] at h
    | some wf =>
        simp only [hl, Option.isSome_iff_exists] at h
        obtain ⟨v, hv⟩ := h
        simp [isOnAt, hl, WFWater.is_on, hv]
  case WFElectricStatus =>
    simp only [isOnReady] at h
    cases hl : lookupWF d key with
    | none => simp [hl] at h
    | some wf =>
        simp only [hl] at h
        cases hv : dget2 wf.data "status" "electricStatus" with
        | none => simp [hv] at h
        | some v =>
            simp only [hv] at h
            cases v <;> simp [isIntLike] at h <;>
              simp [isOnAt, hl, WFElectricStatus.is_on, hv, pyGtInt]
  case WFPumpStatus =>
    simp only [isOnReady] at h
    cases hl : lookupWF d key with
    | none => simp [hl] at h
    | some wf =>
        simp only [hl, Option.isSome_iff_exists] at h
        obtain ⟨v, hv⟩ := h
        simp [isOnAt, hl, WFPumpStatus.is_on, hv]
  case FoodLevel =>
    simp only [isOnReady] at h
    cases hl : lookupFeeder d key with
    | none => simp [hl] at h
    | some f =>
        simp only [hl] at h
        cases hv : dget2 f.data "state" "food" with
        | none => simp [hv] at h
        | some v =>
            simp only [hv] at h
            by_cases ht : f.type = "d3"
            · rw [if_pos ht] at h
              cases v <;> simp [isIntLike] at h <;>
                simp [isOnAt, hl, FoodLevel.is_on, ht, hv, pyLtInt]
            · simp [isOnAt, hl, FoodLevel.is_on, ht, hv]
  case BatteryInstalled =>
    simp only [isOnReady] at h
    cases hl : lookupFeeder d key with
    | none => simp [hl] at h
    | some f =>
        simp only [hl, Option.isSome_iff_exists] at h
        obtain ⟨v, hv⟩ := h
        simp [isOnAt, hl, BatteryInstalled.is_on, hv]
  case BatteryCharging =>
    simp only [isOnReady] at h
    cases hl : lookupFeeder d key with
    | none => simp [hl] at h
    | some f =>
        simp only [hl] at h
        cases hv : dget2 f.data "state" "charge" with
        | none => simp [hv] at h
        | some v =>
            simp only [hv] at h
            cases v <;> simp [isIntLike] at h <;>
              simp [isOnAt, hl, BatteryCharging.is_on, hv, pyGtInt]
  case FoodLevelHopper1 =>
    simp only [isOnReady] at h
    cases hl : lookupFeeder d key with
    | none => simp [hl] at h
    | some f =>
        simp only [hl] at h
        cases hv : dget2 f.data "state" "food1" with
        | none => simp [hv] at h
        | some v =>
            simp only [hv] at h
            cases v <;> simp [isIntLike] at h <;>
              simp [isOnAt, hl, FoodLevelHopper1.is_on, hv, pyLtInt]
  case FoodLevelHopper2 =>
    simp only [isOnReady] at h
    cases hl : lookupFeeder d key with
    | none => simp [hl] at h
    | some f =>
        simp only [hl] at h
        cases hv : dget2 f.data "state" "food2" with
        | none => simp [hv] at h
        | some v =>
            simp only [hv] at h
            cases v <;> simp [isIntLike] at h <;>
              simp [isOnAt, hl, FoodLevelHopper2.is_on, hv, pyLtInt]
  case CameraStatus =>
    simp only [isOnReady] at h
    cases hl : lookupFeeder d key with
    | none => simp [hl] at h
    | some f =>
        simp only [hl, Option.isSome_iff_exists] at h
        obtain ⟨v, hv⟩ := h
        simp [isOnAt, hl, CameraStatus.is_on, hv]
  case Eating =>
    simp only [isOnReady] at h
    cases hl : lookupFeeder d key with
    | none => simp [hl] at h
    | some f =>
        simp only [hl, Option.isSome_iff_exists] at h
        obtain ⟨v, hv⟩ := h
        simp [isOnAt, hl, Eating.is_on, hv]
  case Feeding =>
    simp only [isOnReady] at h
    cases hl : lookupFeeder d key with
    | none => simp [hl] at h
    | some f =>
        simp only [hl, Option.isSome_iff_exists] at h
        obtain ⟨v, hv⟩ := h
        simp [isOnAt, hl, Feeding.is_on, hv]
  case CarePlusSubscription =>
    simp only [isOnReady] at h
    cases hl : lookupFeeder d key with
    | none => simp [hl] at h
    | some f =>
        simp only [hl, Option.isSome_iff_exists] at h
        obtain ⟨v, hv⟩ := h
        simp [isOnAt, hl, CarePlusSubscription.is_on, hv]
  case LBBinFull =>
    simp only [isOnReady] at h
    cases hl : lookupLB d key with
    | none => simp [hl] at h
    | some lb =>
        simp only [hl, Option.isSome_iff_exists] at h
        obtain ⟨v, hv⟩ := h
        simp [isOnAt, hl, LBBinFull.is_on, hv]
  case LBLitterLack =>
    simp only [isOnReady] at h
    cases hl : lookupLB d key with
    | none => simp [hl] at h
    | some lb =>
        simp only [hl, Option.isSome_iff_exists] at h
        obtain ⟨v, hv⟩ := h
        simp [isOnAt, hl, LBLitterLack.is_on, hv]
  case LBDeodorizerLack =>
    simp only [isOnReady] at h
    cases hl : lookupLB d key with
    | none => simp [hl] at h
    | some lb =>
        simp only [hl, Option.isSome_iff_exists] at h
        obtain ⟨v, hv⟩ := h
        simp [isOnAt, hl, LBDeodorizerLack.is_on, hv]
  case LBManuallyPaused =>
    simp only [isOnReady, Option.isSome_iff_exists] at h
    obtain ⟨lb, hl⟩ := h
    simp [isOnAt, hl, LBManuallyPaused.is_on]
  case LBBWastePresence =>
    simp only [isOnReady] at h
    cases hl : lookupLB d key with
    | none => simp [hl] at h
    | some lb =>
        simp only [hl, Option.isSome_iff_exists] at h
        obtain ⟨v, hv⟩ := h
        simp [isOnAt, hl, LBBWastePresence.is_on, hv]

/-- C2 as amended: whenever the device is present and the state fields its
`is_on` reads are present in the blob (holding an `int` or `bool` where the
source order-compares them), `is_on` returns a value, and for every entity
class other than `LBBinFull`, `LBLitterLack` and `LBDeodorizerLack` — whose
`is_on` returns the stored field itself — that value is a boolean. -/
theorem is_on_boolean_c2 (k : EntityKind) (key : Nat) (d : CoordinatorData)
    (h : isOnReady k key d = true) :
    ∃ v, isOnAt k key d = some v ∧
      (k ∉ rawIsOnKinds → ∃ b, v = JVal.bool b) := by
  obtain ⟨v, hv⟩ := Option.isSome_iff_exists.mp (isOnAt_some_of_ready k key d h)
  exact ⟨v, hv, fun hk => isOnAt_bool_shape k key d hk v hv⟩

/-- Witness for `is_on_boolean_c2`: the `d3` feeder fixture's `FoodLevel`
entity. -/
theorem is_on_boolean_c2_witness :
    isOnReady .FoodLevel 2 dFix = true ∧
    ∃ v, isOnAt .FoodLevel 2 dFix = some v ∧
      (EntityKind.FoodLevel ∉ rawIsOnKinds → ∃ b, v = JVal.bool b) :=
  ⟨rfl, is_on_boolean_c2 .FoodLevel 2 dFix rfl⟩

/-- C2 fails as stated: the fixture's `t3` litter box stores the JSON
number `1` in `device_detail["state"]["boxFull"]`; its `LBBinFull` entity
is instantiated and the field is present, yet `is_on` returns that number,
which is not a boolean. -/
theorem is_on_boolean_c2_counterexample :
    (∃ es, setupEntities dFix = some es ∧ ⟨.LBBinFull, 5⟩ ∈ es) ∧
    isOnReady .LBBinFull 5 dFix = true ∧
    isOnAt .LBBinFull 5 dFix = some (JVal.num 1) ∧
    (∀ b : Bool, JVal.num 1 ≠ JVal.bool b) :=
  ⟨⟨_, rfl, by decide⟩, rfl, rfl, fun _ h => JVal.noConfusion h⟩
/-- `"boxState" in device_detail["state"]`, computed after the fact: `true`
exactly when the `"state"` value is an object with a `"boxState"` key. -/
def hasBoxB (p : Nat × LitterBox) : Bool :=
  match dget p.2.device_detail "state" with
  | some (.obj fs) => fs.any (fun q => q.1 == "boxState")
  | _ => false

/-- Well-formedness used by C1: every litter box's `device_detail["state"]`
is a JSON object (so the Python `in` test is key membership and the
litter-box loop cannot raise). -/
def lbStatesAreDicts (d : CoordinatorData) : Prop :=
  ∀ p ∈ d.litter_boxes, ∃ fs, dget p.2.device_detail "state" = some (JVal.obj fs)

/-- The set of entities the claim says `async_setup_entry` instantiates,
written from the claim's words: per water fountain, `WFWater` plus the two
`ctw3` statuses; per feeder, the five type-gated groups; per litter box,
the four type/state-gated groups. -/
def claimEntityCondition (d : CoordinatorData) (e : Entity) : Prop :=
  (∃ wf, (e.key, wf) ∈ d.water_fountains ∧
    (e.kind = .WFWater ∨
      ((e.kind = .WFElectricStatus ∨ e.kind = .WFPumpStatus) ∧ wf.type = "ctw3"))) ∨
  (∃ f, (e.key, f) ∈ d.feeders ∧
    ((e.kind = .FoodLevel ∧ f.type ∉ (["d4s", "d4sh"] : List String)) ∨
     (e.kind = .BatteryInstalled ∧ f.type ∈ (["d4", "d4s", "d4sh"] : List String)) ∨
     ((e.kind = .FoodLevelHopper1 ∨ e.kind = .FoodLevelHopper2) ∧
       f.type ∈ (["d4s", "d4sh"] : List String)) ∨
     ((e.kind = .CameraStatus ∨ e.kind = .Eating ∨ e.kind = .Feeding ∨
        e.kind = .CarePlusSubscription) ∧ f.type = "d4sh") ∨
     (e.kind = .BatteryCharging ∧ f.type = "d3"))) ∨
  (∃ lb, (e.key, lb) ∈ d.litter_boxes ∧
    (((e.kind = .LBBinFull ∨ e.kind = .LBLitterLack) ∧
       lb.type ∈ (["t3", "t4", "t6"] : List String)) ∨
     (e.kind = .LBDeodorizerLack ∧
       (lb.type = "t3" ∨ dhas lb.device_detail "k3Device" = true)) ∨
     (e.kind = .LBManuallyPaused ∧ lb.type = "t3") ∨
     (e.kind = .LBBWastePresence ∧
       ∃ fs, dget lb.device_detail "state" = some (JVal.obj fs) ∧
         (jget (JVal.obj fs) "boxState").isSome = true)))

theorem mem_wfEnts (e : Entity) (p : Nat × Fountain) :
    e ∈ wfEnts p ↔
      ((e.kind = .WFWater ∧ e.key = p.1) ∨
       ((e.kind = .WFElectricStatus ∨ e.kind = .WFPumpStatus) ∧ e.key = p.1 ∧
         p.2.type = "ctw3")) := by
  obtain ⟨k, key⟩ := e
  by_cases ht : p.2.type = "ctw3" <;> simp [wfEnts, ht]
  all_goals aesop

theorem mem_feederEnts (e : Entity) (p : Nat × Feeder) :
    e ∈ feederEnts p ↔
      (((e.kind = .FoodLevel ∧ p.2.type ∉ (["d4s", "d4sh"] : List String)) ∨
        (e.kind = .BatteryInstalled ∧ p.2.type ∈ (["d4", "d4s", "d4sh"] : List String)) ∨
        ((e.kind = .FoodLevelHopper1 ∨ e.kind = .FoodLevelHopper2) ∧
          p.2.type ∈ (["d4s", "d4sh"] : List String)) ∨
        ((e.kind = .CameraStatus ∨ e.kind = .Eating ∨ e.kind = .Feeding ∨
           e.kind = .CarePlusSubscription) ∧ p.2.type = "d4sh") ∨
        (e.kind = .BatteryCharging ∧ p.2.type = "d3")) ∧ e.key = p.1) := by
  obtain ⟨k, key⟩ := e
  simp only [feederEnts, List.mem_append]
  by_cases h1 : p.2.type ∈ (["d4s", "d4sh"] : List String) <;>
    by_cases h2 : p.2.type ∈ (["d4", "d4s", "d4sh"] : List String) <;>
    by_cases h3 : p.2.type = "d4sh" <;>
    by_cases h4 : p.2.type = "d3" <;>
    simp [h1, h2, h3, h4] <;> aesop

theorem mem_lbEntsCore (e : Entity) (p : Nat × LitterBox) (hb : Bool) :
    e ∈ lbEntsCore p hb ↔
      ((((e.kind = .LBBinFull ∨ e.kind = .LBLitterLack) ∧
          p.2.type ∈ (["t3", "t4", "t6"] : List String)) ∨
        (e.kind = .LBDeodorizerLack ∧
          (p.2.type = "t3" ∨ dhas p.2.device_detail "k3Device" = true)) ∨
        (e.kind = .LBManuallyPaused ∧ p.2.type = "t3") ∨
        (e.kind = .LBBWastePresence ∧ hb = true)) ∧ e.key = p.1) := by
  obtain ⟨k, key⟩ := e
  simp only [lbEntsCore, List.mem_append]
  by_cases h1 : p.2.type ∈ (["t3", "t4", "t6"] : List String) <;>
    by_cases h2 : p.2.type = "t3" ∨ dhas p.2.device_detail "k3Device" = true <;>
    by_cases h3 : p.2.type = "t3" <;>
    cases hb <;>
    simp [h1, h2, h3] <;> aesop

theorem lbSetup_eq (l : List (Nat × LitterBox))
    (H : ∀ p ∈ l, ∃ fs, dget p.2.device_detail "state" = some (JVal.obj fs)) :
    lbSetup l = some (l.flatMap (fun p => lbEntsCore p (hasBoxB p))) := by
  induction l with
  | nil => rfl
  | cons p rest ih =>
      obtain ⟨fs, hfs⟩ := H p (by simp)
      have hrest := ih (fun q hq => H q (by simp [hq]))
      simp [lbSetup, lbEnts, hfs, pyIn, hrest, hasBoxB]
theorem hasBoxB_iff (p : Nat × LitterBox) :
    hasBoxB p = true ↔
      ∃ fs, dget p.2.device_detail "state" = some (JVal.obj fs) ∧
        (jget (JVal.obj fs) "boxState").isSome = true := by
  unfold hasBoxB
  cases hm : dget p.2.device_detail "state" with
  | none => simp
  | some v => cases v <;> simp [jget, List.find?_isSome, List.any_eq_true]

/-- C1: under the well-formedness the claim presupposes (each litter box's
`device_detail["state"]` is an object), `async_setup_entry` succeeds and
instantiates exactly the entities determined by each device's type code and
state blob, as enumerated by the claim. -/
theorem setup_exact_entities_c1 (d : CoordinatorData) (H : lbStatesAreDicts d) :
    ∃ es, setupEntities d = some es ∧
      ∀ e : Entity, e ∈ es ↔ claimEntityCondition d e := by
  have hlb := lbSetup_eq d.litter_boxes H
  refine ⟨d.water_fountains.flatMap wfEnts ++ d.feeders.flatMap feederEnts ++
      d.litter_boxes.flatMap (fun p => lbEntsCore p (hasBoxB p)), ?_, fun e => ?_⟩
  · unfold setupEntities
    rw [hlb]
    rfl
  · simp only [List.mem_append, List.mem_flatMap, mem_wfEnts, mem_feederEnts,
      mem_lbEntsCore, hasBoxB_iff, claimEntityCondition]
    constructor
    · rintro ((⟨p, hp, hc⟩ | ⟨p, hp, hc⟩) | ⟨p, hp, hc⟩)
      · obtain (⟨hk, hkey⟩ | ⟨hk, hkey, ht⟩) := hc
        · exact Or.inl ⟨p.2, by rw [hkey]; exact hp, Or.inl hk⟩
        · exact Or.inl ⟨p.2, by rw [hkey]; exact hp, Or.inr ⟨hk, ht⟩⟩
      · obtain ⟨hbig, hkey⟩ := hc
        exact Or.inr (Or.inl ⟨p.2, by rw [hkey]; exact hp, hbig⟩)
      · obtain ⟨hbig, hkey⟩ := hc
        exact Or.inr (Or.inr ⟨p.2, by rw [hkey]; exact hp, hbig⟩)
    · rintro (⟨wf, hmem, hc⟩ | (⟨f, hmem, hc⟩ | ⟨lb, hmem, hc⟩))
      · obtain (hk | ⟨hk, ht⟩) := hc
        · exact Or.inl (Or.inl ⟨(e.key, wf), hmem, Or.inl ⟨hk, rfl⟩⟩)
        · exact Or.inl (Or.inl ⟨(e.key, wf), hmem, Or.inr ⟨hk, rfl, ht⟩⟩)
      · exact Or.inl (Or.inr ⟨(e.key, f), hmem, hc, rfl⟩)
      · exact Or.inr ⟨(e.key, lb), hmem, hc, rfl⟩
theorem kindSuffix_suffix_inj :
    ∀ k k' : EntityKind,
      (kindSuffix k).data <:+ (kindSuffix k').data → k = k' := by
  decide
theorem uid_concat_inj {a b : String} {k k' : EntityKind}
    (h : a ++ kindSuffix k = b ++ kindSuffix k') : k = k' ∧ a = b := by
  have hd : a.data ++ (kindSuffix k).data = b.data ++ (kindSuffix k').data := by
    rw [← String.data_append, ← String.data_append, h]
  have h1 : (kindSuffix k).data <:+ b.data ++ (kindSuffix k').data := by
    rw [← hd]
    exact List.suffix_append a.data (kindSuffix k).data
  have h2 : (kindSuffix k').data <:+ b.data ++ (kindSuffix k').data :=
    List.suffix_append b.data (kindSuffix k').data
  have hk : k = k' := by
    rcases List.suffix_or_suffix_of_suffix h1 h2 with h3 | h3
    · exact kindSuffix_suffix_inj k k' h3
    · exact (kindSuffix_suffix_inj k' k h3).symm
  subst hk
  refine ⟨rfl, String.ext (List.append_cancel_right hd)⟩

theorem find?_map_eq_of_mem_nodup {β : Type} (l : List (Nat × β))
    (hk : (l.map Prod.fst).Nodup) (k : Nat) (v : β) (hm : (k, v) ∈ l) :
    (l.find? (fun p => p.1 == k)).map (fun p => p.2) = some v := by
  induction l with
  | nil => cases hm
  | cons p rest ih =>
      simp only [List.map_cons, List.nodup_cons, List.mem_map] at hk
      rcases List.mem_cons.mp hm with heq | hm'
      · subst heq
        simp [List.find?_cons_of_pos]
      · have hne : (p.1 == k) = false := by
          simp only [beq_eq_false_iff_ne, ne_eq]
          intro hcontra
          exact hk.1 ⟨(k, v), hm', by simp [hcontra]⟩
        rw [List.find?_cons_of_neg _ (by simp [hne])]
        exact ih hk.2 hm'

theorem nodup_flatMap_entities {β : Type} (l : List (Nat × β))
    (f : (Nat × β) → List Entity)
    (hkeys : (l.map Prod.fst).Nodup)
    (hkey : ∀ p, ∀ e ∈ f p, e.key = p.1)
    (hnd : ∀ p, (f p).Nodup) :
    (l.flatMap f).Nodup := by
  induction l with
  | nil => simp
  | cons p rest ih =>
      simp only [List.map_cons, List.nodup_cons, List.mem_map] at hkeys
      rw [List.flatMap_cons]
      refine List.Nodup.append (hnd p) (ih hkeys.2) ?_
      intro e he1 he2
      obtain ⟨q, hq, heq⟩ := List.mem_flatMap.mp he2
      exact hkeys.1 ⟨q, hq, by rw [← hkey q e heq, hkey p e he1]⟩
theorem wfEnts_nodup (p : Nat × Fountain) : (wfEnts p).Nodup := by
  unfold wfEnts
  split <;> simp

theorem feederEnts_nodup (p : Nat × Feeder) : (feederEnts p).Nodup := by
  unfold feederEnts
  by_cases h1 : p.2.type ∈ (["d4s", "d4sh"] : List String) <;>
    by_cases h2 : p.2.type ∈ (["d4", "d4s", "d4sh"] : List String) <;>
    by_cases h3 : p.2.type = "d4sh" <;>
    by_cases h4 : p.2.type = "d3" <;>
    simp [h1, h2, h3, h4]

theorem lbEntsCore_nodup (p : Nat × LitterBox) (b : Bool) :
    (lbEntsCore p b).Nodup := by
  unfold lbEntsCore
  by_cases h1 : p.2.type ∈ (["t3", "t4", "t6"] : List String) <;>
    by_cases h3 : p.2.type = "t3" <;>
    by_cases h4 : dhas p.2.device_detail "k3Device" = true <;>
    cases b <;>
    simp [h1, h3, h4]

theorem wfEnts_key (p : Nat × Fountain) (e : Entity) (he : e ∈ wfEnts p) :
    e.key = p.1 := by
  rcases (mem_wfEnts e p).mp he with ⟨_, hk⟩ | ⟨_, hk, _⟩ <;> exact hk

theorem feederEnts_key (p : Nat × Feeder) (e : Entity) (he : e ∈ feederEnts p) :
    e.key = p.1 :=
  ((mem_feederEnts e p).mp he).2

theorem lbEntsCore_key (p : Nat × LitterBox) (b : Bool) (e : Entity)
    (he : e ∈ lbEntsCore p b) : e.key = p.1 :=
  ((mem_lbEntsCore e p b).mp he).2

theorem wfEnts_cat (p : Nat × Fountain) (e : Entity) (he : e ∈ wfEnts p) :
    kindCat e.kind = .wf := by
  rcases (mem_wfEnts e p).mp he with ⟨hk, _⟩ | ⟨hk | hk, _, _⟩ <;>
    simp [hk, kindCat]

theorem feederEnts_cat (p : Nat × Feeder) (e : Entity) (he : e ∈ feederEnts p) :
    kindCat e.kind = .feeder := by
  obtain ⟨hbig, _⟩ := (mem_feederEnts e p).mp he
  rcases hbig with ⟨hk, _⟩ | ⟨hk, _⟩ | ⟨hk | hk, _⟩ | ⟨hk | hk | hk | hk, _⟩ | ⟨hk, _⟩ <;>
    simp [hk, kindCat]

theorem lbEntsCore_cat (p : Nat × LitterBox) (b : Bool) (e : Entity)
    (he : e ∈ lbEntsCore p b) : kindCat e.kind = .lb := by
  obtain ⟨hbig, _⟩ := (mem_lbEntsCore e p b).mp he
  rcases hbig with ⟨hk | hk, _⟩ | ⟨hk, _⟩ | ⟨hk, _⟩ | ⟨hk, _⟩ <;>
    simp [hk, kindCat]

/-- `"boxState" in device_detail["state"]` as the Python expression actually
evaluates (defaulting to `false` when the test would raise, in which case
setup produced no list at all). -/
def hasBoxPy (p : Nat × LitterBox) : Bool :=
  ((dget p.2.device_detail "state").bind (pyIn "boxState")).getD false

theorem lbSetup_shape (l : List (Nat × LitterBox)) (L : List Entity)
    (h : lbSetup l = some L) :
    L = l.flatMap (fun p => lbEntsCore p (hasBoxPy p)) := by
  induction l generalizing L with
  | nil =>
      simp only [lbSetup, Option.some.injEq] at h
      simp [← h]
  | cons p rest ih =>
      simp only [lbSetup] at h
      cases hb : (dget p.2.device_detail "state").bind (pyIn "boxState") with
      | none => rw [lbEnts, hb] at h; simp at h
      | some b =>
          rw [lbEnts, hb] at h
          simp only [Option.map_some', Option.some_bind, Option.map_eq_some'] at h
          obtain ⟨rs, hrs, hL⟩ := h
          subst hL
          simp [List.flatMap_cons, ih rs hrs, hasBoxPy, hb]
theorem entity_ext (e1 e2 : Entity) (hk : e1.kind = e2.kind)
    (hh : e1.key = e2.key) : e1 = e2 := by
  cases e1
  cases e2
  simp_all

theorem wf_block_char (d : CoordinatorData)
    (hkw : (d.water_fountains.map Prod.fst).Nodup) (e : Entity)
    (he : e ∈ d.water_fountains.flatMap wfEnts) :
    kindCat e.kind = .wf ∧
      ∃ p ∈ d.water_fountains, e.key = p.1 ∧
        uidOf d e = some (p.2.id ++ kindSuffix e.kind) := by
  obtain ⟨p, hp, hep⟩ := List.mem_flatMap.mp he
  have hcat := wfEnts_cat p e hep
  have hkey := wfEnts_key p e hep
  refine ⟨hcat, p, hp, hkey, ?_⟩
  have hlook : lookupWF d e.key = some p.2 := by
    rw [hkey]
    exact find?_map_eq_of_mem_nodup _ hkw p.1 p.2 hp
  simp [uidOf, hcat, hlook]

theorem feeder_block_char (d : CoordinatorData)
    (hkf : (d.feeders.map Prod.fst).Nodup) (e : Entity)
    (he : e ∈ d.feeders.flatMap feederEnts) :
    kindCat e.kind = .feeder ∧
      ∃ p ∈ d.feeders, e.key = p.1 ∧
        uidOf d e = some (p.2.id ++ kindSuffix e.kind) := by
  obtain ⟨p, hp, hep⟩ := List.mem_flatMap.mp he
  have hcat := feederEnts_cat p e hep
  have hkey := feederEnts_key p e hep
  refine ⟨hcat, p, hp, hkey, ?_⟩
  have hlook : lookupFeeder d e.key = some p.2 := by
    rw [hkey]
    exact find?_map_eq_of_mem_nodup _ hkf p.1 p.2 hp
  simp [uidOf, hcat, hlook]

theorem lb_block_char (d : CoordinatorData)
    (hkl : (d.litter_boxes.map Prod.fst).Nodup)
    (g : (Nat × LitterBox) → Bool) (e : Entity)
    (he : e ∈ d.litter_boxes.flatMap (fun p => lbEntsCore p (g p))) :
    kindCat e.kind = .lb ∧
      ∃ p ∈ d.litter_boxes, e.key = p.1 ∧
        uidOf d e = some (p.2.id ++ kindSuffix e.kind) := by
  obtain ⟨p, hp, hep⟩ := List.mem_flatMap.mp he
  have hcat := lbEntsCore_cat p (g p) e hep
  have hkey := lbEntsCore_key p (g p) e hep
  refine ⟨hcat, p, hp, hkey, ?_⟩
  have hlook : lookupLB d e.key = some p.2 := by
    rw [hkey]
    exact find?_map_eq_of_mem_nodup _ hkl p.1 p.2 hp
  simp [uidOf, hcat, hlook]
/-- C10 as amended: the `unique_id` suffix is distinct across all seventeen
entity classes, and — provided the device dictionaries are genuine dicts
(no duplicate keys) and the device ids are pairwise distinct within each of
the three maps — all entities created by one `async_setup_entry` call have
pairwise distinct `unique_id` values. -/
theorem unique_ids_distinct_c10 (d : CoordinatorData)
    (hkw : (d.water_fountains.map Prod.fst).Nodup)
    (hkf : (d.feeders.map Prod.fst).Nodup)
    (hkl : (d.litter_boxes.map Prod.fst).Nodup)
    (hiw : (d.water_fountains.map (fun p => p.2.id)).Nodup)
    (hif : (d.feeders.map (fun p => p.2.id)).Nodup)
    (hil : (d.litter_boxes.map (fun p => p.2.id)).Nodup)
    (es : List Entity) (hes : setupEntities d = some es) :
    (∀ k k' : EntityKind, kindSuffix k = kindSuffix k' → k = k') ∧
    (es.map (uidOf d)).Pairwise (fun a b => a ≠ b) := by
  refine ⟨by decide, ?_⟩
  unfold setupEntities at hes
  cases hlb : lbSetup d.litter_boxes with
  | none => rw [hlb] at hes; cases hes
  | some lbs =>
      rw [hlb] at hes
      simp only [Option.map_some', Option.some.injEq] at hes
      have hshape := lbSetup_shape _ _ hlb
      subst hshape
      subst hes
      show ((d.water_fountains.flatMap wfEnts ++ d.feeders.flatMap feederEnts ++
        d.litter_boxes.flatMap (fun p => lbEntsCore p (hasBoxPy p))).map
          (uidOf d)).Nodup
      have hndA := nodup_flatMap_entities d.water_fountains wfEnts hkw
        wfEnts_key wfEnts_nodup
      have hndB := nodup_flatMap_entities d.feeders feederEnts hkf
        feederEnts_key feederEnts_nodup
      have hndC := nodup_flatMap_entities d.litter_boxes
        (fun p => lbEntsCore p (hasBoxPy p)) hkl
        (fun p => lbEntsCore_key p (hasBoxPy p))
        (fun p => lbEntsCore_nodup p (hasBoxPy p))
      have hdAB : (d.water_fountains.flatMap wfEnts).Disjoint
          (d.feeders.flatMap feederEnts) := by
        intro e heA heB
        have h1 := (wf_block_char d hkw e heA).1
        have h2 := (feeder_block_char d hkf e heB).1
        rw [h1] at h2
        exact DevCat.noConfusion h2
      have hdAC : (d.water_fountains.flatMap wfEnts).Disjoint
          (d.litter_boxes.flatMap (fun p => lbEntsCore p (hasBoxPy p))) := by
        intro e heA heC
        have h1 := (wf_block_char d hkw e heA).1
        have h2 := (lb_block_char d hkl _ e heC).1
        rw [h1] at h2
        exact DevCat.noConfusion h2
      have hdBC : (d.feeders.flatMap feederEnts).Disjoint
          (d.litter_boxes.flatMap (fun p => lbEntsCore p (hasBoxPy p))) := by
        intro e heB heC
        have h1 := (feeder_block_char d hkf e heB).1
        have h2 := (lb_block_char d hkl _ e heC).1
        rw [h1] at h2
        exact DevCat.noConfusion h2
      have hnd := (hndA.append hndB hdAB).append hndC (by
        intro e he hec
        rcases List.mem_append.mp he with heA | heB
        · exact hdAC heA hec
        · exact hdBC heB hec)
      refine hnd.map_on ?_
      intro e1 he1 e2 he2 huid
      have hchar : ∀ e, e ∈ d.water_fountains.flatMap wfEnts ++
          d.feeders.flatMap feederEnts ++
          d.litter_boxes.flatMap (fun p => lbEntsCore p (hasBoxPy p)) →
          (kindCat e.kind = .wf ∧ ∃ p ∈ d.water_fountains, e.key = p.1 ∧
            uidOf d e = some (p.2.id ++ kindSuffix e.kind)) ∨
          (kindCat e.kind = .feeder ∧ ∃ p ∈ d.feeders, e.key = p.1 ∧
            uidOf d e = some (p.2.id ++ kindSuffix e.kind)) ∨
          (kindCat e.kind = .lb ∧ ∃ p ∈ d.litter_boxes, e.key = p.1 ∧
            uidOf d e = some (p.2.id ++ kindSuffix e.kind)) := by
        intro e he
        rcases List.mem_append.mp he with he' | heC
        · rcases List.mem_append.mp he' with heA | heB
          · exact Or.inl (wf_block_char d hkw e heA)
          · exact Or.inr (Or.inl (feeder_block_char d hkf e heB))
        · exact Or.inr (Or.inr (lb_block_char d hkl _ e heC))
      rcases hchar e1 he1 with ⟨hc1, p, hp, hk1, hu1⟩ | ⟨hc1, p, hp, hk1, hu1⟩ |
          ⟨hc1, p, hp, hk1, hu1⟩ <;>
        rcases hchar e2 he2 with ⟨hc2, q, hq, hk2, hu2⟩ | ⟨hc2, q, hq, hk2, hu2⟩ |
          ⟨hc2, q, hq, hk2, hu2⟩ <;>
        (rw [hu1, hu2] at huid
         obtain ⟨hkind, hid⟩ := uid_concat_inj (Option.some.inj huid)
         first
           | (rw [hkind] at hc1; rw [hc1] at hc2; exact DevCat.noConfusion hc2)
           | (have hpq := List.inj_on_of_nodup_map hiw hp hq hid
              exact entity_ext e1 e2 hkind (by rw [hk1, hk2, hpq]))
           | (have hpq := List.inj_on_of_nodup_map hif hp hq hid
              exact entity_ext e1 e2 hkind (by rw [hk1, hk2, hpq]))
           | (have hpq := List.inj_on_of_nodup_map hil hp hq hid
              exact entity_ext e1 e2 hkind (by rw [hk1, hk2, hpq])))

/-- Witness for `unique_ids_distinct_c10` at the fixture data. -/
theorem unique_ids_distinct_c10_witness :
    ∃ es, setupEntities dFix = some es ∧
      (es.map (uidOf dFix)).Pairwise (fun a b => a ≠ b) :=
  ⟨_, rfl,
    (unique_ids_distinct_c10 dFix (by decide) (by decide) (by decide)
      (by decide) (by decide) (by decide) _ rfl).2⟩

/-- C10 fails as stated only in its count of entity classes: the platform
defines seventeen entity classes, not fifteen. -/
theorem unique_ids_distinct_c10_counterexample :
    Fintype.card EntityKind = 17 ∧ Fintype.card EntityKind ≠ 15 := by
  constructor <;> decide

/-- Witness for `setup_exact_entities_c1` at the fixture data. -/
theorem setup_exact_entities_c1_witness :
    ∃ es, setupEntities dFix = some es ∧
      ∀ e : Entity, e ∈ es ↔ claimEntityCondition dFix e :=
  setup_exact_entities_c1 dFix (by
    intro p hp
    simp only [dFix, List.mem_cons, List.not_mem_nil, or_false] at hp
    rcases hp with rfl | rfl
    · exact ⟨_, rfl⟩
    · exact ⟨_, rfl⟩)
